import Mathlib

/-!
Verification development for the j1tfyi-portal edge server (`src/main.ts`).

The rate limiter, widget-config builder, compression adapter and request
router are embedded shallowly: the in-memory `Map` of per-client windows
becomes a function `String → Option Entry`, timestamps and counters are
integers (JS numbers hold exact integers in this range), and fallible
lookups return `Except`.  External collaborators (the file system behind
`Deno.readTextFile` / `serveDir`, and the `gzip` codec) are oracles passed
in as parameters.
-/

namespace Portal

/-- `STATIC_CACHE_MAX_AGE` from `main.ts` (1 year in seconds). -/
def STATIC_CACHE_MAX_AGE : Int := 31536000

/-- `DYNAMIC_CACHE_MAX_AGE` from `main.ts` (1 hour in seconds). -/
def DYNAMIC_CACHE_MAX_AGE : Int := 3600

/-- `RATE_LIMIT` from `main.ts`: requests per window. -/
def RATE_LIMIT : Int := 50

/-- `RATE_WINDOW` from `main.ts`: 30 seconds in milliseconds. -/
def RATE_WINDOW : Int := 30000

/-- One value of `rateLimitStore`: `{ count: number; timestamp: number }`. -/
structure Entry where
  count : Int
  timestamp : Int
deriving DecidableEq

/-- Result record of `checkRateLimit`: `{ allowed; remaining; reset }`. -/
structure Decision where
  allowed : Bool
  remaining : Int
  reset : Int
deriving DecidableEq

/-- The `rateLimitStore` map, keyed by client identity. -/
abbrev Store := String → Option Entry

/-- `rateLimitStore.set(ip, e)`. -/
def Store.set (s : Store) (ip : String) (e : Entry) : Store :=
  fun k => if k = ip then some e else s k

/-- A fresh `rateLimitStore` with no entries. -/
def emptyStore : Store := fun _ => none

/-- `checkRateLimit(ip)` from `main.ts` lines 27-52, with the current time
and the store passed explicitly; returns the decision and the new store. -/
def checkRateLimit (ip : String) (now : Int) (s : Store) : Decision × Store :=
  match s ip with
  | none =>
      (⟨true, RATE_LIMIT - 1, now + RATE_WINDOW⟩, s.set ip ⟨1, now⟩)
  | some u =>
      if now - u.timestamp > RATE_WINDOW then
        (⟨true, RATE_LIMIT - 1, now + RATE_WINDOW⟩, s.set ip ⟨1, now⟩)
      else if u.count ≥ RATE_LIMIT then
        (⟨false, 0, u.timestamp + RATE_WINDOW⟩, s)
      else
        (⟨true, RATE_LIMIT - (u.count + 1), u.timestamp + RATE_WINDOW⟩,
          s.set ip ⟨u.count + 1, u.timestamp⟩)

/-- The cleanup sweep (`setInterval` body, `main.ts` lines 61-68): drop every
entry whose age strictly exceeds the window. -/
def cleanup (now : Int) (s : Store) : Store :=
  fun ip =>
    match s ip with
    | some e => if now - e.timestamp > RATE_WINDOW then none else some e
    | none => none

/-- Run a sequence of `checkRateLimit` calls (identity, time) threading the
store; returns the list of decisions and the final store. -/
def runCalls : List (String × Int) → Store → List Decision × Store
  | [], s => ([], s)
  | (ip, t) :: rest, s =>
      let p := checkRateLimit ip t s
      let q := runCalls rest p.2
      (p.1 :: q.1, q.2)

/-- The decision `checkRateLimit` produces for an unexpired entry currently
holding count `m` inside the window that started at `t₁`. -/
def decisionAfter (t₁ m : Int) : Decision :=
  if m < RATE_LIMIT then ⟨true, RATE_LIMIT - (m + 1), t₁ + RATE_WINDOW⟩
  else ⟨false, 0, t₁ + RATE_WINDOW⟩

/-- Table invariant: every stored count is at most the limit. -/
def storeInv (s : Store) : Prop :=
  ∀ ip e, s ip = some e → e.count ≤ RATE_LIMIT

/-- Two stores agree up to entries already expired at time `t`. -/
def storeEquivAt (t : Int) (s s' : Store) : Prop :=
  ∀ ip, s ip = s' ip ∨
    (∃ e, s ip = some e ∧ s' ip = none ∧ RATE_WINDOW < t - e.timestamp) ∨
    (∃ e, s' ip = some e ∧ s ip = none ∧ RATE_WINDOW < t - e.timestamp)

/-- `DEBRIDGE_REFERRAL_CODE` from `main.ts`. -/
def DEBRIDGE_REFERRAL_CODE : String := "31021"

/-- `JUPITER_REFERRAL_PUBKEY` from `main.ts`. -/
def JUPITER_REFERRAL_PUBKEY : String := "FP5JGryFjTNdYustodtw9zLV31fdds5vvieW7TYzP8VJ"

/-- `JUPITER_REFERRAL_LINK` from `main.ts`. -/
def JUPITER_REFERRAL_LINK : String :=
  "https://jup.ag/?referrer=FP5JGryFjTNdYustodtw9zLV31fdds5vvieW7TYzP8VJ&feeBps=100"

/-- `SOLANA_PUBLIC_KEY` from `main.ts`. -/
def SOLANA_PUBLIC_KEY : String := "FWBUqaHuaRPpN4BsbcP255RVUezvf67n2zYGY6SrZfzZ"

/-- `EVM_RECIPIENT` from `main.ts`. -/
def EVM_RECIPIENT : String := "0xe83A14f6eae56B0b30465B48a2DE75B2DF895223"

/-- `SUPPORTED_CHAINS.EVM` from `main.ts`. -/
def SUPPORTED_CHAINS_EVM : List Int := [1, 10, 56, 137, 8453, 42161, 43114]

/-- `SUPPORTED_CHAINS.SOLANA` from `main.ts`. -/
def SUPPORTED_CHAINS_SOLANA : List Int := [7565164]

/-- `getAffiliateFeeRecipient(inputChain)` from `main.ts` lines 71-79; the
`throw` becomes `Except.error`. -/
def getAffiliateFeeRecipient (inputChain : Int) : Except String String :=
  if inputChain ∈ SUPPORTED_CHAINS_SOLANA then Except.ok SOLANA_PUBLIC_KEY
  else if inputChain ∈ SUPPORTED_CHAINS_EVM then Except.ok EVM_RECIPIENT
  else Except.error ("Unsupported chain ID: " ++ toString inputChain)

/-- `getReferralKey(inputChain)` from `main.ts` lines 81-89. -/
def getReferralKey (inputChain : Int) : Except String String :=
  if inputChain ∈ SUPPORTED_CHAINS_SOLANA then Except.ok JUPITER_REFERRAL_PUBKEY
  else if inputChain ∈ SUPPORTED_CHAINS_EVM then Except.ok DEBRIDGE_REFERRAL_CODE
  else Except.error ("Unsupported chain ID: " ++ toString inputChain)

/-- The `WIDGET_CONFIG` object literal from `main.ts` lines 92-261, with its
fields in source (= serialization) order. -/
structure WidgetConfigT where
  v : String
  element : String
  title : String
  description : String
  width : String
  height : String
  inputChain : Int
  outputChain : Int
  inputCurrency : String
  outputCurrency : String
  address : String
  showSwapTransfer : Bool
  amount : String
  outputAmount : String
  isAmountFromNotModifiable : Bool
  isAmountToNotModifiable : Bool
  lang : String
  mode : String
  isEnableCalldata : Bool
  styles : String
  modalBg : String
  chartBg : String
  borderColor : String
  tooltipBg : String
  formControlBg : String
  controlBorder : String
  primary : String
  secondary : String
  success : String
  error : String
  warning : String
  fontColor : String
  fontFamily : String
  theme : String
  isHideLogo : Bool
  logo : String
  r : String
  affiliateFeeRecipient : String
  affiliateFeePercent : String
  jupiterRefLink : String
  jupiterRefPubkey : String
  supportedChains : String
deriving DecidableEq

/-- Token list per input chain (`supportedChains.inputChains` in `main.ts`),
keys in ascending numeric order as `JSON.stringify` emits them. -/
def inputChainsTokens : List (Int × List String) :=
  [ (1, ["", "0xdac17f958d2ee523a2206206994597c13d831ec7",
      "0xa0b86991c6218b36c1d19d4a2e9eb0ce3606eb48",
      "0x6b175474e89094c44da98b954eedeac495271d0f",
      "0xc02aaa39b223fe8d0a0e5c4f27ead9083c756cc2"]),
    (10, ["", "0x4200000000000000000000000000000000000042",
      "0x94b008aa00579c1307b0ef2c499ad98a8ce58e58",
      "0x0b2c639c533813f4aa9d7837caf62653d097ff85",
      "0xda10009cbd5d07dd0cecc66161fc93d7c9000da1",
      "0x4200000000000000000000000000000000000006"]),
    (56, ["", "0x55d398326f99059ff775485246999027b3197955",
      "0x8ac76a51cc950d9822d68b83fe1ad97b32cd580d",
      "0x1af3f329e8be154074d8769d1ffa4ee058b1dbc3",
      "0xbb4cdb9cbd36b01bd1cbaebf2de08d9173bc095c"]),
    (137, ["", "0xc2132d05d31c914a87c6611c10748aeb04b58e8f",
      "0x3c499c542cef5e3811e1192ce70d8cc03d5c3359",
      "0x8f3cf7ad23cd3cadbd9735aff958023239c6a063",
      "0x7ceb23fd6bc0add59e62ac25578270cff1b9f619"]),
    (8453, ["", "0xfde4c96c8593536e31f229ea8f37b2ada2699bb2",
      "0x833589fcd6edb6e08f4c7c32d4f71b54bda02913",
      "0x50c5725949a6f0c72e6c4a641f24049a917db0cb",
      "0x4200000000000000000000000000000000000006",
      "0x506beb7965fc7053059006c7ab4c62c02c2d989f"]),
    (42161, ["", "0x912ce59144191c1204e64559fe8253a0e49e6548",
      "0xfd086bc7cd5c481dcc9c85ebe478a1c0b69fcbb9",
      "0xaf88d065e77c8cc2239327c5edb3a432268e5831",
      "0xda10009cbd5d07dd0cecc66161fc93d7c9000da1"]),
    (43114, ["", "0x9702230a8ea53601f5cd2dc00fdbc13d4df4a8c7",
      "0xb97ef9ef8734c71904d8002f8b6bc66dd9c48a6e",
      "0xd586e7f844cea2f87f50152665bcbc2c279d8d70",
      "0xb31f66aa3c1e785363f0875a1b74e27b85fd66c7"]),
    (7565164, ["", "So11111111111111111111111111111111111111112",
      "HAqD46mR4LgY3aJiMZSabfefZoysG3Uuj6wn2ZKYE14v",
      "Es9vMFrzaCERmJfrF4H2FYD4KCoNkY11McCe8BenwNYB",
      "EPjFWdd5AufqSSqeM2qN1xzybapC8G4wEGGkZwyTDt1v"]) ]

/-- Token list per output chain (`supportedChains.outputChains` in `main.ts`;
the source repeats the same table). -/
def outputChainsTokens : List (Int × List String) :=
  [ (1, ["", "0xdac17f958d2ee523a2206206994597c13d831ec7",
      "0xa0b86991c6218b36c1d19d4a2e9eb0ce3606eb48",
      "0x6b175474e89094c44da98b954eedeac495271d0f",
      "0xc02aaa39b223fe8d0a0e5c4f27ead9083c756cc2"]),
    (10, ["", "0x4200000000000000000000000000000000000042",
      "0x94b008aa00579c1307b0ef2c499ad98a8ce58e58",
      "0x0b2c639c533813f4aa9d7837caf62653d097ff85",
      "0xda10009cbd5d07dd0cecc66161fc93d7c9000da1",
      "0x4200000000000000000000000000000000000006"]),
    (56, ["", "0x55d398326f99059ff775485246999027b3197955",
      "0x8ac76a51cc950d9822d68b83fe1ad97b32cd580d",
      "0x1af3f329e8be154074d8769d1ffa4ee058b1dbc3",
      "0xbb4cdb9cbd36b01bd1cbaebf2de08d9173bc095c"]),
    (137, ["", "0xc2132d05d31c914a87c6611c10748aeb04b58e8f",
      "0x3c499c542cef5e3811e1192ce70d8cc03d5c3359",
      "0x8f3cf7ad23cd3cadbd9735aff958023239c6a063",
      "0x7ceb23fd6bc0add59e62ac25578270cff1b9f619"]),
    (8453, ["", "0xfde4c96c8593536e31f229ea8f37b2ada2699bb2",
      "0x833589fcd6edb6e08f4c7c32d4f71b54bda02913",
      "0x50c5725949a6f0c72e6c4a641f24049a917db0cb",
      "0x4200000000000000000000000000000000000006",
      "0x506beb7965fc7053059006c7ab4c62c02c2d989f"]),
    (42161, ["", "0x912ce59144191c1204e64559fe8253a0e49e6548",
      "0xfd086bc7cd5c481dcc9c85ebe478a1c0b69fcbb9",
      "0xaf88d065e77c8cc2239327c5edb3a432268e5831",
      "0xda10009cbd5d07dd0cecc66161fc93d7c9000da1"]),
    (43114, ["", "0x9702230a8ea53601f5cd2dc00fdbc13d4df4a8c7",
      "0xb97ef9ef8734c71904d8002f8b6bc66dd9c48a6e",
      "0xd586e7f844cea2f87f50152665bcbc2c279d8d70",
      "0xb31f66aa3c1e785363f0875a1b74e27b85fd66c7"]),
    (7565164, ["", "So11111111111111111111111111111111111111112",
      "HAqD46mR4LgY3aJiMZSabfefZoysG3Uuj6wn2ZKYE14v",
      "Es9vMFrzaCERmJfrF4H2FYD4KCoNkY11McCe8BenwNYB",
      "EPjFWdd5AufqSSqeM2qN1xzybapC8G4wEGGkZwyTDt1v"]) ]

/-- JSON escape of one character (only the characters occurring in this
configuration need escaping: quote and backslash). -/
def jsonEscapeChar (ch : Char) : String :=
  if ch = '\"' then "\\\"" else if ch = '\\' then "\\\\" else String.singleton ch

/-- JSON escape of a string body. -/
def jsonEscape (s : String) : String := String.join (s.toList.map jsonEscapeChar)

/-- A JSON string literal. -/
def jsonStr (s : String) : String := "\"" ++ jsonEscape s ++ "\""

/-- A JSON boolean literal. -/
def jsonBool (b : Bool) : String := if b then "true" else "false"

/-- A JSON array of string literals. -/
def jsonArr (xs : List String) : String :=
  "[" ++ String.intercalate "," (xs.map jsonStr) ++ "]"

/-- A JSON object mapping chain ids (as string keys) to token arrays. -/
def jsonChainMap (m : List (Int × List String)) : String :=
  "\x7b" ++
    String.intercalate ","
      (m.map fun p => jsonStr (toString p.1) ++ ":" ++ jsonArr p.2) ++
  "\x7d"

/-- `JSON.stringify({inputChains: ..., outputChains: ...})` from `main.ts`
lines 139-260. -/
def supportedChainsJSON : String :=
  "\x7b" ++ jsonStr "inputChains" ++ ":" ++ jsonChainMap inputChainsTokens ++ "," ++
    jsonStr "outputChains" ++ ":" ++ jsonChainMap outputChainsTokens ++ "\x7d"

/-- `JSON.stringify(WIDGET_CONFIG)`: fields serialized in insertion order. -/
def stringifyWidgetConfig (w : WidgetConfigT) : String :=
  "\x7b" ++ String.intercalate ","
    [ jsonStr "v" ++ ":" ++ jsonStr w.v,
      jsonStr "element" ++ ":" ++ jsonStr w.element,
      jsonStr "title" ++ ":" ++ jsonStr w.title,
      jsonStr "description" ++ ":" ++ jsonStr w.description,
      jsonStr "width" ++ ":" ++ jsonStr w.width,
      jsonStr "height" ++ ":" ++ jsonStr w.height,
      jsonStr "inputChain" ++ ":" ++ toString w.inputChain,
      jsonStr "outputChain" ++ ":" ++ toString w.outputChain,
      jsonStr "inputCurrency" ++ ":" ++ jsonStr w.inputCurrency,
      jsonStr "outputCurrency" ++ ":" ++ jsonStr w.outputCurrency,
      jsonStr "address" ++ ":" ++ jsonStr w.address,
      jsonStr "showSwapTransfer" ++ ":" ++ jsonBool w.showSwapTransfer,
      jsonStr "amount" ++ ":" ++ jsonStr w.amount,
      jsonStr "outputAmount" ++ ":" ++ jsonStr w.outputAmount,
      jsonStr "isAmountFromNotModifiable" ++ ":" ++ jsonBool w.isAmountFromNotModifiable,
      jsonStr "isAmountToNotModifiable" ++ ":" ++ jsonBool w.isAmountToNotModifiable,
      jsonStr "lang" ++ ":" ++ jsonStr w.lang,
      jsonStr "mode" ++ ":" ++ jsonStr w.mode,
      jsonStr "isEnableCalldata" ++ ":" ++ jsonBool w.isEnableCalldata,
      jsonStr "styles" ++ ":" ++ jsonStr w.styles,
      jsonStr "modalBg" ++ ":" ++ jsonStr w.modalBg,
      jsonStr "chartBg" ++ ":" ++ jsonStr w.chartBg,
      jsonStr "borderColor" ++ ":" ++ jsonStr w.borderColor,
      jsonStr "tooltipBg" ++ ":" ++ jsonStr w.tooltipBg,
      jsonStr "formControlBg" ++ ":" ++ jsonStr w.formControlBg,
      jsonStr "controlBorder" ++ ":" ++ jsonStr w.controlBorder,
      jsonStr "primary" ++ ":" ++ jsonStr w.primary,
      jsonStr "secondary" ++ ":" ++ jsonStr w.secondary,
      jsonStr "success" ++ ":" ++ jsonStr w.success,
      jsonStr "error" ++ ":" ++ jsonStr w.error,
      jsonStr "warning" ++ ":" ++ jsonStr w.warning,
      jsonStr "fontColor" ++ ":" ++ jsonStr w.fontColor,
      jsonStr "fontFamily" ++ ":" ++ jsonStr w.fontFamily,
      jsonStr "theme" ++ ":" ++ jsonStr w.theme,
      jsonStr "isHideLogo" ++ ":" ++ jsonBool w.isHideLogo,
      jsonStr "logo" ++ ":" ++ jsonStr w.logo,
      jsonStr "r" ++ ":" ++ jsonStr w.r,
      jsonStr "affiliateFeeRecipient" ++ ":" ++ jsonStr w.affiliateFeeRecipient,
      jsonStr "affiliateFeePercent" ++ ":" ++ jsonStr w.affiliateFeePercent,
      jsonStr "jupiterRefLink" ++ ":" ++ jsonStr w.jupiterRefLink,
      jsonStr "jupiterRefPubkey" ++ ":" ++ jsonStr w.jupiterRefPubkey,
      jsonStr "supportedChains" ++ ":" ++ jsonStr w.supportedChains ] ++
  "\x7d"

/-- The base64 `styles` blob of `WIDGET_CONFIG`. -/
def stylesBlob : String :=
  "eyJhcHBCYWNrZ3JvdW5kIjoiIzQ3NDY0NiIsIm1vZGFsQmciOiIjMDAwMDAwIiwiY2hhcnRCZyI6IiMwMDAwMDAiLCJib3JkZXJDb2xvciI6IiMwMDAwMDAiLCJ0b29sdGlwQmciOiIjMDAwMDAwIiwiZm9ybUNvbnRyb2xCZyI6IiMwMjAyMDIiLCJjb250cm9sQm9yZGVyIjoiIzc0NzQ3NCIsInByaW1hcnkiOiIjMDAwMDAwIiwic2Vjb25kYXJ5IjoiIzQ3NDY0NiIsInN1Y2Nlc3MiOiIjMDA2NDA3IiwiZXJyb3IiOiIjY2QwMTAxIiwid2FybmluZyI6IiNlNGU3MDMiLCJmb250Q29sb3IiOiIjRkZGRkZGIiwiZm9udEZhbWlseSI6IkF1ZGlvd2lkZSIsInByaW1hcnlCdG5CZyI6IiM4MzAyMDIiLCJwcmltYXJ5QnRuQmdIb3ZlciI6IiMwYTBhMGEiLCJwcmltYXJ5QnRuVGV4dCI6IiNkNGQ0ZDQiLCJzZWNvbmRhcnlCdG5CZyI6IiM0NzQ2NDYiLCJzZWNvbmRhcnlCdG5CZ0hvdmVyIjoiI2NkNjgwMSIsInNlY29uZGFyeUJ0blRleHQiOiIjZDRkNGQ0Iiwic2Vjb25kYXJ5QnRuT3V0bGluZSI6IiMwYTBhMGEiLCJidG5Gb250V2VpZ2h0Ijo5MDAsImNoYWluQnRuQmciOiIjMDAwMDAwIiwiY2hhaW5CdG5CZ0FjdGl2ZSI6IiMwYzBiMGIiLCJjaGFpbkJ0blBhZGRpbmciOiIyMCJ9"

/-- The `WIDGET_CONFIG` value: building it evaluates `getReferralKey(1)` and
`getAffiliateFeeRecipient(1)`; a thrown error propagates as `Except.error`. -/
def WIDGET_CONFIG : Except String WidgetConfigT :=
  match getReferralKey 1, getAffiliateFeeRecipient 1 with
  | Except.ok rk, Except.ok fr =>
      Except.ok
        { v := "1"
          element := "debridgeWidget"
          title := "J1T.FYI Bridge Gate"
          description := "Just One Token, Just One Gate"
          width := "600"
          height := "800"
          inputChain := 1
          outputChain := 7565164
          inputCurrency := ""
          outputCurrency := "HAqD46mR4LgY3aJiMZSabfefZoysG3Uuj6wn2ZKYE14v"
          address := ""
          showSwapTransfer := true
          amount := ""
          outputAmount := ""
          isAmountFromNotModifiable := false
          isAmountToNotModifiable := false
          lang := "en"
          mode := "deswap"
          isEnableCalldata := false
          styles := stylesBlob
          modalBg := "#000000"
          chartBg := "#000000"
          borderColor := "#000000"
          tooltipBg := "#000000"
          formControlBg := "#020202"
          controlBorder := "#747474"
          primary := "#000000"
          secondary := "#474646"
          success := "#006407"
          error := "#cd0101"
          warning := "#e4e703"
          fontColor := "#8f8f8f"
          fontFamily := "Audiowide"
          theme := "dark"
          isHideLogo := false
          logo := ""
          r := rk
          affiliateFeeRecipient := fr
          affiliateFeePercent := "1"
          jupiterRefLink := JUPITER_REFERRAL_LINK
          jupiterRefPubkey := JUPITER_REFERRAL_PUBKEY
          supportedChains := supportedChainsJSON }
  | Except.error e, _ => Except.error e
  | _, Except.error e => Except.error e

/-- Response bodies as byte sequences. -/
abbrev Bytes := List Nat

/-- UTF-8 encoding of one scalar value, as `TextEncoder.encode` emits it. -/
def utf8EncodeChar (c : Char) : List Nat :=
  let n := c.toNat
  if n < 0x80 then [n]
  else if n < 0x800 then [0xC0 + n / 0x40, 0x80 + n % 0x40]
  else if n < 0x10000 then
    [0xE0 + n / 0x1000, 0x80 + (n / 0x40) % 0x40, 0x80 + n % 0x40]
  else
    [0xF0 + n / 0x40000, 0x80 + (n / 0x1000) % 0x40, 0x80 + (n / 0x40) % 0x40,
      0x80 + n % 0x40]

/-- The replacement character U+FFFD that UTF-8 decoding substitutes for
invalid bytes. -/
def replChar : Char := Char.ofNat 0xFFFD

/-- State of the WHATWG UTF-8 decoder between bytes: the partial code point,
how many continuation bytes are still needed, and the valid range for the
next byte. -/
structure Utf8State where
  codepoint : Nat
  needed : Nat
  lower : Nat
  upper : Nat

/-- One step of the WHATWG UTF-8 decoder on a byte in the initial state:
ASCII is emitted, a valid lead byte opens a multi-byte sequence (with the
E0/ED/F0/F4 boundary adjustments), anything else becomes U+FFFD. -/
def leadStep (b : Nat) : List Char × Option Utf8State :=
  if b < 0x80 then ([Char.ofNat b], none)
  else if 0xC2 ≤ b ∧ b ≤ 0xDF then ([], some ⟨b - 0xC0, 1, 0x80, 0xBF⟩)
  else if 0xE0 ≤ b ∧ b ≤ 0xEF then
    ([], some ⟨b - 0xE0, 2, if b = 0xE0 then 0xA0 else 0x80,
      if b = 0xED then 0x9F else 0xBF⟩)
  else if 0xF0 ≤ b ∧ b ≤ 0xF4 then
    ([], some ⟨b - 0xF0, 3, if b = 0xF0 then 0x90 else 0x80,
      if b = 0xF4 then 0x8F else 0xBF⟩)
  else ([replChar], none)

/-- The WHATWG UTF-8 decoder: a rejected continuation byte emits U+FFFD and
is reprocessed in the initial state (inlined via `leadStep`); input ending
inside a sequence emits one U+FFFD. -/
def utf8Go : Option Utf8State → List Nat → List Char
  | none, [] => []
  | some _, [] => [replChar]
  | none, b :: rest =>
      let p := leadStep b
      p.1 ++ utf8Go p.2 rest
  | some st, b :: rest =>
      if st.lower ≤ b ∧ b ≤ st.upper then
        if st.needed = 1 then
          Char.ofNat (st.codepoint * 0x40 + (b - 0x80)) :: utf8Go none rest
        else
          utf8Go (some ⟨st.codepoint * 0x40 + (b - 0x80), st.needed - 1,
            0x80, 0xBF⟩) rest
      else
        let p := leadStep b
        replChar :: (p.1 ++ utf8Go p.2 rest)

/-- UTF-8 decode with replacement, from the initial state. -/
def utf8Decode (b : List Nat) : List Char := utf8Go none b

/-- `TextEncoder.encode`: the UTF-8 bytes of a string. -/
def strBytes (s : String) : Bytes := (s.toList.map utf8EncodeChar).flatten

/-- `response.text()`: UTF-8 decode of the body bytes, stripping a leading
byte-order mark as the Encoding standard's "UTF-8 decode" does; invalid
bytes become U+FFFD, so this is lossy on non-UTF-8 bodies. -/
def jsTextDecode (b : Bytes) : String :=
  if b.take 3 = [0xEF, 0xBB, 0xBF] then String.mk (utf8Decode (b.drop 3))
  else String.mk (utf8Decode b)

/-- `headers.get(k)` on our header list. -/
def lookupHeader : List (String × String) → String → Option String
  | [], _ => none
  | p :: rest, k => if p.1 = k then some p.2 else lookupHeader rest k

/-- `headers.set(k, v)`: replace the entry for `k`, or append it. -/
def headersSet : List (String × String) → String → String → List (String × String)
  | [], k, v => [(k, v)]
  | p :: rest, k, v =>
      if p.1 = k then (k, v) :: headersSet rest k v
      else p :: headersSet rest k v

/-- A `Response`: status, headers, body bytes. -/
structure Resp where
  status : Int
  headers : List (String × String)
  body : Bytes
deriving DecidableEq

/-- `compressResponse(response)` from `main.ts` lines 264-276, with the gzip
codec passed as an oracle: reads the body as text (`await response.text()`,
a lossy UTF-8 decode), re-encodes it (`new TextEncoder().encode(body)`),
gzips the result, sets `Content-Encoding: gzip`, recomputes `Content-Length`
as the compressed byte length, and keeps status and headers. -/
def compressResponse (gz : Bytes → Bytes) (r : Resp) : Resp :=
  let body := jsTextDecode r.body
  let compressed := gz (strBytes body)
  { status := r.status
    headers := headersSet (headersSet r.headers "Content-Encoding" "gzip")
      "Content-Length" (toString compressed.length)
    body := compressed }

/-- The parts of an inbound request the server reads. -/
structure Request where
  path : String
  xForwardedFor : Option String
  xRealIp : Option String
  acceptEncoding : Option String
deriving DecidableEq

/-- `p.isPrefixOf s` on characters: `s.startsWith(p)`. -/
def strStarts (s p : String) : Bool := p.toList.isPrefixOf s.toList

/-- `s.endsWith(p)` on characters. -/
def strEnds (s p : String) : Bool := p.toList.reverse.isPrefixOf s.toList.reverse

/-- Whether `sub` occurs inside the character list. -/
def listHasInfix (sub : List Char) : List Char → Bool
  | [] => sub.isEmpty
  | c :: rest => sub.isPrefixOf (c :: rest) || listHasInfix sub rest

/-- JS `s.includes(sub)`. -/
def strIncl (s sub : String) : Bool := listHasInfix sub.toList s.toList

/-- Client identity (`main.ts` lines 287-289): first comma-separated part of
`x-forwarded-for`, else `x-real-ip`, else `"unknown"`; empty strings are
falsy in JS and fall through. -/
def clientIP (req : Request) : String :=
  let fwd := match req.xForwardedFor with
    | some s => String.mk (s.toList.takeWhile (fun c => c ≠ ','))
    | none => ""
  if fwd ≠ "" then fwd
  else match req.xRealIp with
    | some r => if r ≠ "" then r else "unknown"
    | none => "unknown"

/-- `req.headers.get('accept-encoding')?.includes('gzip') ?? false`. -/
def acceptsGzip (req : Request) : Bool :=
  match req.acceptEncoding with
  | some v => strIncl v "gzip"
  | none => false

/-- Result of `Deno.readTextFile` on the SPA root document. -/
inductive FsResult where
  | ok (content : String)
  | err
deriving DecidableEq

/-- Result of `serveDir` for a static-asset request. -/
inductive AssetResult where
  | resp (r : Resp)
  | threw
deriving DecidableEq

/-- The static-asset path test (`main.ts` line 349): an `/assets/` path or a
known static extension. -/
def isAssetPath (p : String) : Bool :=
  strStarts p "/assets/" || strEnds p ".ico" || strEnds p ".png" ||
    strEnds p ".svg" || strEnds p ".webmanifest"

/-- `Math.ceil(a / b)` for integral inputs and positive `b`. -/
def jsCeilDiv (a b : Int) : Int := -(Int.ediv (-a) b)

/-- `addRateLimitHeaders(headers, rateLimitInfo)` from `main.ts` lines 54-58:
limit, remaining, and reset in epoch seconds (`Math.ceil(reset / 1000)`). -/
def addRateLimitHeaders (hs : List (String × String)) (d : Decision) :
    List (String × String) :=
  headersSet (headersSet (headersSet hs
    "X-RateLimit-Limit" (toString RATE_LIMIT))
    "X-RateLimit-Remaining" (toString d.remaining))
    "X-RateLimit-Reset" (toString (jsCeilDiv d.reset 1000))

/-- The response the `serve` handler (`main.ts` lines 279-403) produces for a
given rate-limit decision; file system and `serveDir` results are oracles.
An exception from a branch surfaces as the top-level 500. -/
def buildResponse (gz : Bytes → Bytes) (req : Request) (now : Int)
    (indexFile : FsResult) (asset : AssetResult) (d : Decision) : Resp :=
  if d.allowed = false then
    { status := 429
      headers := addRateLimitHeaders
        [("Content-Type", "text/plain"),
          ("Retry-After", toString (jsCeilDiv (d.reset - now) 1000))] d
      body := strBytes "Rate limit exceeded" }
  else if req.path = "/widget-config" then
    match WIDGET_CONFIG with
    | Except.ok w =>
        let r : Resp :=
          { status := 200
            headers := addRateLimitHeaders
              [("Content-Type", "application/json"),
                ("Cache-Control", "public, max-age=" ++ toString DYNAMIC_CACHE_MAX_AGE),
                ("X-Content-Type-Options", "nosniff"),
                ("Access-Control-Allow-Origin", "*"),
                ("Access-Control-Allow-Methods", "GET, OPTIONS"),
                ("Access-Control-Allow-Headers", "Content-Type")] d
            body := strBytes (stringifyWidgetConfig w) }
        if acceptsGzip req then compressResponse gz r else r
    | Except.error _ =>
        { status := 500
          headers := [("Content-Type", "text/plain"), ("Cache-Control", "no-store")]
          body := strBytes "Internal Server Error" }
  else if req.path = "/" ∨ req.path = "/index.html" then
    match indexFile with
    | FsResult.ok content =>
        { status := 200
          headers := addRateLimitHeaders
            [("content-type", "text/html; charset=utf-8"),
              ("Cache-Control", "public, max-age=" ++ toString DYNAMIC_CACHE_MAX_AGE)] d
          body := strBytes content }
    | FsResult.err =>
        { status := 500, headers := [], body := strBytes "Server Error" }
  else if isAssetPath req.path then
    match asset with
    | AssetResult.resp ar =>
        if 200 ≤ ar.status ∧ ar.status < 300 then
          let r : Resp :=
            { status := ar.status
              headers := addRateLimitHeaders
                (headersSet ar.headers "Cache-Control"
                  (if strStarts req.path "/assets/" then
                    "public, max-age=" ++ toString STATIC_CACHE_MAX_AGE
                  else "public, max-age=" ++ toString DYNAMIC_CACHE_MAX_AGE)) d
              body := ar.body }
          if acceptsGzip req then compressResponse gz r else r
        else
          { status := 404, headers := [], body := strBytes "Not Found" }
    | AssetResult.threw =>
        { status := 500, headers := [], body := strBytes "Server Error" }
  else
    { status := 404
      headers := addRateLimitHeaders
        [("Content-Type", "text/plain"), ("Cache-Control", "no-store")] d
      body := strBytes "Not Found" }

/-- One request-handling step: run the rate limiter, then build the response
from its decision. -/
def handle (gz : Bytes → Bytes) (req : Request) (now : Int) (s : Store)
    (indexFile : FsResult) (asset : AssetResult) : Resp × Store :=
  let p := checkRateLimit (clientIP req) now s
  (buildResponse gz req now indexFile asset p.1, p.2)

/-- An inbound request paired with its arrival time and oracle results. -/
structure ReqAt where
  req : Request
  now : Int
  indexFile : FsResult
  asset : AssetResult

/-- Run a sequence of requests through the handler, threading the store. -/
def runServe (gz : Bytes → Bytes) : List ReqAt → Store → List Resp × Store
  | [], s => ([], s)
  | q :: rest, s =>
      let p := handle gz q.req q.now s q.indexFile q.asset
      let w := runServe gz rest p.2
      (p.1 :: w.1, w.2)

/-- The three rate-limit headers with their values for decision `d`. -/
def hasRateHeaders (hs : List (String × String)) (d : Decision) : Prop :=
  lookupHeader hs "X-RateLimit-Limit" = some (toString RATE_LIMIT) ∧
  lookupHeader hs "X-RateLimit-Remaining" = some (toString d.remaining) ∧
  lookupHeader hs "X-RateLimit-Reset" = some (toString (jsCeilDiv d.reset 1000))

/-- The uncompressed `/widget-config` success response. -/
def widgetConfigResp (d : Decision) (w : WidgetConfigT) : Resp :=
  { status := 200
    headers := addRateLimitHeaders
      [("Content-Type", "application/json"),
        ("Cache-Control", "public, max-age=" ++ toString DYNAMIC_CACHE_MAX_AGE),
        ("X-Content-Type-Options", "nosniff"),
        ("Access-Control-Allow-Origin", "*"),
        ("Access-Control-Allow-Methods", "GET, OPTIONS"),
        ("Access-Control-Allow-Headers", "Content-Type")] d
    body := strBytes (stringifyWidgetConfig w) }

/-- The SPA-root success response. -/
def indexOkResp (content : String) (d : Decision) : Resp :=
  { status := 200
    headers := addRateLimitHeaders
      [("content-type", "text/html; charset=utf-8"),
        ("Cache-Control", "public, max-age=" ++ toString DYNAMIC_CACHE_MAX_AGE)] d
    body := strBytes content }

/-- The uncompressed static-asset success response. -/
def assetOkResp (req : Request) (a : Resp) (d : Decision) : Resp :=
  { status := a.status
    headers := addRateLimitHeaders
      (headersSet a.headers "Cache-Control"
        (if strStarts req.path "/assets/" then
          "public, max-age=" ++ toString STATIC_CACHE_MAX_AGE
        else "public, max-age=" ++ toString DYNAMIC_CACHE_MAX_AGE)) d
    body := a.body }

example : checkRateLimit "a" 0 emptyStore =
    (⟨true, 49, 30000⟩, emptyStore.set "a" ⟨1, 0⟩) := rfl

example :
    (runCalls [("a", 0), ("a", 5), ("a", 10)] emptyStore).1 =
      [⟨true, 49, 30000⟩, ⟨true, 48, 30000⟩, ⟨true, 47, 30000⟩] := by decide

lemma Store.set_self (s : Store) (ip : String) (e : Entry) (h : s ip = some e) :
    s.set ip e = s := by
  funext k
  by_cases hk : k = ip
  · subst hk; simp [Store.set, h]
  · simp [Store.set, hk]

lemma Store.set_set (s : Store) (ip : String) (e e' : Entry) :
    (s.set ip e).set ip e' = s.set ip e' := by
  funext k
  by_cases hk : k = ip <;> simp [Store.set, hk]

lemma Store.set_get (s : Store) (ip : String) (e : Entry) :
    (s.set ip e) ip = some e := by
  simp [Store.set]

lemma Store.set_get_ne (s : Store) (ip k : String) (e : Entry) (h : k ≠ ip) :
    (s.set ip e) k = s k := by
  simp [Store.set, h]

/-- Branch lemma: a fresh identity gets a new window. -/
lemma checkRateLimit_fresh (ip : String) (s : Store) (t : Int) (hs : s ip = none) :
    checkRateLimit ip t s = (⟨true, RATE_LIMIT - 1, t + RATE_WINDOW⟩, s.set ip ⟨1, t⟩) := by
  simp [checkRateLimit, hs]

/-- Branch lemma: an entry older than the window is reset. -/
lemma checkRateLimit_expired (ip : String) (s : Store) (e : Entry) (t : Int)
    (hs : s ip = some e) (hexp : RATE_WINDOW < t - e.timestamp) :
    checkRateLimit ip t s = (⟨true, RATE_LIMIT - 1, t + RATE_WINDOW⟩, s.set ip ⟨1, t⟩) := by
  simp [checkRateLimit, hs, hexp]

/-- Branch lemma: an unexpired entry at or over the limit is rejected, stores
untouched. -/
lemma checkRateLimit_full (ip : String) (s : Store) (c t₁ t : Int)
    (hs : s ip = some ⟨c, t₁⟩) (hw : t - t₁ ≤ RATE_WINDOW) (hfull : RATE_LIMIT ≤ c) :
    checkRateLimit ip t s = (⟨false, 0, t₁ + RATE_WINDOW⟩, s) := by
  simp [checkRateLimit, hs, not_lt.mpr hw, hfull]

/-- Branch lemma: an unexpired entry below the limit is incremented. -/
lemma checkRateLimit_incr (ip : String) (s : Store) (c t₁ t : Int)
    (hs : s ip = some ⟨c, t₁⟩) (hw : t - t₁ ≤ RATE_WINDOW) (hlt : c < RATE_LIMIT) :
    checkRateLimit ip t s =
      (⟨true, RATE_LIMIT - (c + 1), t₁ + RATE_WINDOW⟩, s.set ip ⟨c + 1, t₁⟩) := by
  simp [checkRateLimit, hs, not_lt.mpr hw, not_le.mpr hlt]

/-- Main sequence lemma: starting from an unexpired entry `⟨c, t₁⟩` with
`1 ≤ c ≤ limit`, a run of calls all landing inside the window produces the
decisions `decisionAfter t₁ (c + k)` and leaves the count at
`min (c + length) limit`. -/
lemma runCalls_window (ip : String) :
    ∀ (ts : List Int) (s : Store) (c t₁ : Int),
      s ip = some ⟨c, t₁⟩ → 1 ≤ c → c ≤ RATE_LIMIT →
      (∀ t ∈ ts, t - t₁ ≤ RATE_WINDOW) →
      (runCalls (ts.map fun t => (ip, t)) s).1 =
          (List.range ts.length).map (fun k : Nat => decisionAfter t₁ (c + (k : Int))) ∧
      (runCalls (ts.map fun t => (ip, t)) s).2 =
          s.set ip ⟨min (c + (ts.length : Int)) RATE_LIMIT, t₁⟩ := by
  intro ts
  induction ts with
  | nil =>
      intro s c t₁ hs hc1 hc2 _
      refine ⟨by simp [runCalls], ?_⟩
      simp only [runCalls, List.map_nil, List.length_nil, Nat.cast_zero, add_zero]
      rw [min_eq_left hc2, Store.set_self s ip ⟨c, t₁⟩ hs]
  | cons t rest ih =>
      intro s c t₁ hs hc1 hc2 hwin
      have hwt : t - t₁ ≤ RATE_WINDOW := hwin t (by simp)
      have hwrest : ∀ u ∈ rest, u - t₁ ≤ RATE_WINDOW := fun u hu => hwin u (by simp [hu])
      by_cases hfull : RATE_LIMIT ≤ c
      · have hc50 : c = RATE_LIMIT := le_antisymm hc2 hfull
        have hstep := checkRateLimit_full ip s c t₁ t hs hwt hfull
        have hrest := ih s c t₁ hs hc1 hc2 hwrest
        constructor
        · show (runCalls ((ip, t) :: rest.map fun u => (ip, u)) s).1 = _
          rw [List.length_cons, List.range_succ_eq_map, List.map_cons, List.map_map]
          simp only [runCalls, hstep, hrest.1]
          congr 1
          · simp [decisionAfter, not_lt.mpr hfull]
          · apply List.map_congr_left
            intro k _
            have h1 : ¬ (c + (k : Int) < RATE_LIMIT) := by rw [hc50]; omega
            have h2 : ¬ (c + ((k : Int) + 1) < RATE_LIMIT) := by rw [hc50]; omega
            simp [Function.comp, decisionAfter, h1, h2]
        · show (runCalls ((ip, t) :: rest.map fun u => (ip, u)) s).2 = _
          simp only [runCalls, hstep, hrest.2]
          have hn : (0 : Int) ≤ (rest.length : Int) := Int.natCast_nonneg _
          rw [hc50, List.length_cons]
          push_cast
          rw [min_eq_right (by omega), min_eq_right (by omega)]
      · have hlt : c < RATE_LIMIT := lt_of_not_le hfull
        have hstep := checkRateLimit_incr ip s c t₁ t hs hwt hlt
        have hrest := ih (s.set ip ⟨c + 1, t₁⟩) (c + 1) t₁ (Store.set_get s ip _)
          (by omega) (by omega) hwrest
        constructor
        · show (runCalls ((ip, t) :: rest.map fun u => (ip, u)) s).1 = _
          rw [List.length_cons, List.range_succ_eq_map, List.map_cons, List.map_map]
          simp only [runCalls, hstep, hrest.1]
          congr 1
          · simp [decisionAfter, hlt]
          · apply List.map_congr_left
            intro k _
            have harg : c + 1 + (k : Int) = c + ((k : Int) + 1) := by ring
            simp [Function.comp, harg]
        · show (runCalls ((ip, t) :: rest.map fun u => (ip, u)) s).2 = _
          simp only [runCalls, hstep, hrest.2, Store.set_set]
          have harg : c + 1 + ((rest.length : Nat) : Int) =
              c + (((t :: rest).length : Nat) : Int) := by
            push_cast [List.length_cons]; ring
          rw [harg]

lemma storeInv_set (s : Store) (ip : String) (e : Entry)
    (h : storeInv s) (he : e.count ≤ RATE_LIMIT) : storeInv (s.set ip e) := by
  intro k e' hk
  by_cases hki : k = ip
  · subst hki
    rw [Store.set_get] at hk
    injection hk with hk
    exact hk ▸ he
  · rw [Store.set_get_ne _ _ _ _ hki] at hk
    exact h k e' hk

lemma checkRateLimit_inv (ip : String) (t : Int) (s : Store) (h : storeInv s) :
    storeInv (checkRateLimit ip t s).2 := by
  cases hs : s ip with
  | none =>
      rw [checkRateLimit_fresh ip s t hs]
      exact storeInv_set s ip ⟨1, t⟩ h (by show (1 : Int) ≤ RATE_LIMIT; decide)
  | some u =>
      obtain ⟨c, t₀⟩ := u
      by_cases hexp : RATE_WINDOW < t - t₀
      · rw [checkRateLimit_expired ip s ⟨c, t₀⟩ t hs hexp]
        exact storeInv_set s ip ⟨1, t⟩ h (by show (1 : Int) ≤ RATE_LIMIT; decide)
      · by_cases hfull : RATE_LIMIT ≤ c
        · rw [checkRateLimit_full ip s c t₀ t hs (le_of_not_lt hexp) hfull]
          exact h
        · rw [checkRateLimit_incr ip s c t₀ t hs (le_of_not_lt hexp) (lt_of_not_le hfull)]
          refine storeInv_set s ip ⟨c + 1, t₀⟩ h ?_
          have := lt_of_not_le hfull
          show c + 1 ≤ RATE_LIMIT
          omega

lemma storeEquivAt_symm {t : Int} {s s' : Store} (h : storeEquivAt t s s') :
    storeEquivAt t s' s := by
  intro ip
  rcases h ip with h | h | h
  · exact Or.inl h.symm
  · exact Or.inr (Or.inr h)
  · exact Or.inr (Or.inl h)

lemma storeEquivAt_set (t : Int) (s s' : Store) (heq : storeEquivAt t s s')
    (ip : String) (e : Entry) : storeEquivAt t (s.set ip e) (s'.set ip e) := by
  intro k
  by_cases hk : k = ip
  · subst hk
    left
    rw [Store.set_get, Store.set_get]
  · rcases heq k with h | ⟨e', h1, h2, h3⟩ | ⟨e', h1, h2, h3⟩
    · left
      rw [Store.set_get_ne _ _ _ _ hk, Store.set_get_ne _ _ _ _ hk]
      exact h
    · right; left
      exact ⟨e', by rw [Store.set_get_ne _ _ _ _ hk]; exact h1,
        by rw [Store.set_get_ne _ _ _ _ hk]; exact h2, h3⟩
    · right; right
      exact ⟨e', by rw [Store.set_get_ne _ _ _ _ hk]; exact h1,
        by rw [Store.set_get_ne _ _ _ _ hk]; exact h2, h3⟩

lemma cleanup_equiv (t : Int) (s : Store) : storeEquivAt t s (cleanup t s) := by
  intro ip
  cases hs : s ip with
  | none => left; simp [cleanup, hs]
  | some e =>
      by_cases hexp : RATE_WINDOW < t - e.timestamp
      · right; left
        exact ⟨e, rfl, by simp [cleanup, hs, hexp], hexp⟩
      · left; simp [cleanup, hs, hexp]

lemma checkRateLimit_equiv (t t' : Int) (ip : String) (s s' : Store)
    (heq : storeEquivAt t s s') (ht : t ≤ t') :
    (checkRateLimit ip t' s).1 = (checkRateLimit ip t' s').1 ∧
      storeEquivAt t (checkRateLimit ip t' s).2 (checkRateLimit ip t' s').2 := by
  rcases heq ip with hsame | ⟨e, hse, hs'e, hexp⟩ | ⟨e, hs'e, hse, hexp⟩
  · cases hs : s' ip with
    | none =>
        rw [checkRateLimit_fresh ip s t' (hsame.trans hs), checkRateLimit_fresh ip s' t' hs]
        exact ⟨rfl, storeEquivAt_set t s s' heq ip ⟨1, t'⟩⟩
    | some u =>
        obtain ⟨c, t₀⟩ := u
        by_cases hexp : RATE_WINDOW < t' - t₀
        · rw [checkRateLimit_expired ip s ⟨c, t₀⟩ t' (hsame.trans hs) hexp,
            checkRateLimit_expired ip s' ⟨c, t₀⟩ t' hs hexp]
          exact ⟨rfl, storeEquivAt_set t s s' heq ip ⟨1, t'⟩⟩
        · by_cases hfull : RATE_LIMIT ≤ c
          · rw [checkRateLimit_full ip s c t₀ t' (hsame.trans hs) (le_of_not_lt hexp) hfull,
              checkRateLimit_full ip s' c t₀ t' hs (le_of_not_lt hexp) hfull]
            exact ⟨rfl, heq⟩
          · rw [checkRateLimit_incr ip s c t₀ t' (hsame.trans hs) (le_of_not_lt hexp)
                (lt_of_not_le hfull),
              checkRateLimit_incr ip s' c t₀ t' hs (le_of_not_lt hexp) (lt_of_not_le hfull)]
            exact ⟨rfl, storeEquivAt_set t s s' heq ip ⟨c + 1, t₀⟩⟩
  · have hexp' : RATE_WINDOW < t' - e.timestamp := by omega
    rw [checkRateLimit_expired ip s e t' hse hexp', checkRateLimit_fresh ip s' t' hs'e]
    exact ⟨rfl, storeEquivAt_set t s s' heq ip ⟨1, t'⟩⟩
  · have hexp' : RATE_WINDOW < t' - e.timestamp := by omega
    rw [checkRateLimit_fresh ip s t' hse, checkRateLimit_expired ip s' e t' hs'e hexp']
    exact ⟨rfl, storeEquivAt_set t s s' heq ip ⟨1, t'⟩⟩

lemma runCalls_fresh_window (ip : String) (s : Store) (t₁ : Int) (ts : List Int)
    (hfresh : s ip = none)
    (hwin : ∀ t ∈ ts, t - t₁ ≤ RATE_WINDOW) :
    (runCalls ((t₁ :: ts).map fun t => (ip, t)) s).1 =
      ⟨true, RATE_LIMIT - 1, t₁ + RATE_WINDOW⟩ ::
        (List.range ts.length).map (fun k : Nat => decisionAfter t₁ (1 + (k : Int))) := by
  have h1 := checkRateLimit_fresh ip s t₁ hfresh
  have h2 := runCalls_window ip ts (s.set ip ⟨1, t₁⟩) 1 t₁ (Store.set_get s ip _)
    le_rfl (by show (1 : Int) ≤ RATE_LIMIT; decide) hwin
  show (runCalls ((ip, t₁) :: ts.map fun t => (ip, t)) s).1 = _
  simp only [runCalls, h1, h2.1]

lemma runCalls_equiv (t : Int) :
    ∀ (reqs : List (String × Int)) (s s' : Store), storeEquivAt t s s' →
      (∀ q ∈ reqs, t ≤ q.2) →
      (runCalls reqs s).1 = (runCalls reqs s').1 ∧
        storeEquivAt t (runCalls reqs s).2 (runCalls reqs s').2 := by
  intro reqs
  induction reqs with
  | nil => exact fun s s' h _ => ⟨rfl, h⟩
  | cons q rest ih =>
      intro s s' h hq
      obtain ⟨ip, tq⟩ := q
      have hstep := checkRateLimit_equiv t tq ip s s' h (hq (ip, tq) (by simp))
      have hrest := ih _ _ hstep.2 (fun q hq' => hq q (by simp [hq']))
      simp only [runCalls]
      exact ⟨by rw [hstep.1, hrest.1], hrest.2⟩

/-- C1: for a fresh identity, any run of `N = ts.length + 1` consecutive
`checkRateLimit` calls whose times all lie within one window of the first
call (with `N ≤ limit`) is fully admitted, the `k`-th call (1-based `k+1`)
returning `remaining = limit - (k+1)`, hence ending at `limit - N`. -/
theorem c1_within_window_admits (ip : String) (s : Store) (t₁ : Int) (ts : List Int)
    (hfresh : s ip = none)
    (hN : (ts.length : Int) + 1 ≤ RATE_LIMIT)
    (_hchain : List.Chain (· ≤ ·) t₁ ts)
    (hwin : ∀ t ∈ ts, t - t₁ ≤ RATE_WINDOW) :
    (runCalls ((t₁ :: ts).map fun t => (ip, t)) s).1 =
      (List.range (ts.length + 1)).map
        (fun k : Nat => ⟨true, RATE_LIMIT - ((k : Int) + 1), t₁ + RATE_WINDOW⟩) := by
  rw [runCalls_fresh_window ip s t₁ ts hfresh hwin]
  rw [List.range_succ_eq_map, List.map_cons, List.map_map, List.cons_eq_cons]
  refine ⟨by norm_num, ?_⟩
  apply List.map_congr_left
  intro k hk
  have hk' : k < ts.length := List.mem_range.mp hk
  have hlt : 1 + (k : Int) < RATE_LIMIT := by omega
  simp only [Function.comp_apply]
  rw [show decisionAfter t₁ (1 + (k : Int)) =
      ⟨true, RATE_LIMIT - (1 + (k : Int) + 1), t₁ + RATE_WINDOW⟩ from by
    unfold decisionAfter; rw [if_pos hlt]]
  simp only [Decision.mk.injEq, true_and, and_true]
  push_cast
  ring

/-- Witness for `c1_within_window_admits`: three concrete calls. -/
theorem c1_within_window_admits_witness :
    (runCalls (((0 : Int) :: [5, 10]).map fun t => ("a", t)) emptyStore).1 =
      (List.range (([5, 10] : List Int).length + 1)).map
        (fun k : Nat => ⟨true, RATE_LIMIT - ((k : Int) + 1), (0 : Int) + RATE_WINDOW⟩) :=
  c1_within_window_admits "a" emptyStore 0 [5, 10] rfl (by decide)
    (by norm_num [List.chain_cons]) (by decide)

/-- C3: any sequence of `checkRateLimit` calls preserves the invariant that no
stored entry's count exceeds the configured limit. -/
theorem c3_count_never_exceeds_limit (reqs : List (String × Int)) (s : Store)
    (h : storeInv s) : storeInv (runCalls reqs s).2 := by
  induction reqs generalizing s with
  | nil => exact h
  | cons q rest ih =>
      obtain ⟨ip, t⟩ := q
      simp only [runCalls]
      exact ih (checkRateLimit ip t s).2 (checkRateLimit_inv ip t s h)

/-- Witness for `c3_count_never_exceeds_limit` on a concrete run. -/
theorem c3_count_never_exceeds_limit_witness :
    storeInv (runCalls [("a", 0), ("a", 1)] emptyStore).2 :=
  c3_count_never_exceeds_limit [("a", 0), ("a", 1)] emptyStore
    (fun _ _ h => Option.noConfusion h)

/-- C4 counterexample: an entry whose age equals the window duration exactly
(30000 ms, so elapsed ≥ windowDuration as the claim demands) is NOT reset:
with prior count at the limit, the call is rejected instead of being admitted
with `remaining = limit - 1`. -/
theorem c4_counterexample :
    RATE_WINDOW ≤ (30000 : Int) - 0 ∧
      (checkRateLimit "a" 30000 (emptyStore.set "a" ⟨50, 0⟩)).1.allowed = false := by
  decide

/-- C4 (amended): the window resets only when the elapsed time since
`windowStart` STRICTLY exceeds the window duration; then the call is admitted
with `remaining = limit - 1` and the entry reset to count 1 at `now`. -/
theorem c4_amended_strict_reset (ip : String) (s : Store) (e : Entry) (now : Int)
    (hs : s ip = some e) (hexp : now - e.timestamp > RATE_WINDOW) :
    checkRateLimit ip now s =
      (⟨true, RATE_LIMIT - 1, now + RATE_WINDOW⟩, s.set ip ⟨1, now⟩) :=
  checkRateLimit_expired ip s e now hs hexp

/-- Witness for `c4_amended_strict_reset` at elapsed time 30001 ms. -/
theorem c4_amended_strict_reset_witness :
    checkRateLimit "a" 30001 (emptyStore.set "a" ⟨50, 0⟩) =
      (⟨true, RATE_LIMIT - 1, 30001 + RATE_WINDOW⟩,
        (emptyStore.set "a" ⟨50, 0⟩).set "a" ⟨1, 30001⟩) :=
  c4_amended_strict_reset "a" (emptyStore.set "a" ⟨50, 0⟩) ⟨50, 0⟩ 30001
    (Store.set_get emptyStore "a" ⟨50, 0⟩) (by decide)

/-- C6: every decision's `reset` equals `windowStart + windowDuration` of the
entry in effect (stored for that identity) right after the decision. -/
theorem c6_reset_is_window_start_plus_duration (ip : String) (now : Int) (s : Store) :
    ∃ e, (checkRateLimit ip now s).2 ip = some e ∧
      (checkRateLimit ip now s).1.reset = e.timestamp + RATE_WINDOW := by
  cases hs : s ip with
  | none =>
      rw [checkRateLimit_fresh ip s now hs]
      exact ⟨⟨1, now⟩, Store.set_get _ _ _, rfl⟩
  | some u =>
      obtain ⟨c, t₀⟩ := u
      by_cases hexp : RATE_WINDOW < now - t₀
      · rw [checkRateLimit_expired ip s ⟨c, t₀⟩ now hs hexp]
        exact ⟨⟨1, now⟩, Store.set_get _ _ _, rfl⟩
      · by_cases hfull : RATE_LIMIT ≤ c
        · rw [checkRateLimit_full ip s c t₀ now hs (le_of_not_lt hexp) hfull]
          exact ⟨⟨c, t₀⟩, hs, rfl⟩
        · rw [checkRateLimit_incr ip s c t₀ now hs (le_of_not_lt hexp) (lt_of_not_le hfull)]
          exact ⟨⟨c + 1, t₀⟩, Store.set_get _ _ _, rfl⟩

/-- C10: running the cleanup sweep at time `t` never changes the decisions of
any subsequent sequence of `checkRateLimit` calls made at times `≥ t`. -/
theorem c10_cleanup_observationally_equivalent (t : Int) (s : Store)
    (reqs : List (String × Int)) (hle : ∀ q ∈ reqs, t ≤ q.2) :
    (runCalls reqs (cleanup t s)).1 = (runCalls reqs s).1 :=
  (runCalls_equiv t reqs (cleanup t s) s (storeEquivAt_symm (cleanup_equiv t s)) hle).1

/-- Witness for `c10_cleanup_observationally_equivalent` with an expired entry
actually removed by the sweep. -/
theorem c10_cleanup_observationally_equivalent_witness :
    (runCalls [("a", 40000), ("b", 41000)]
        (cleanup 40000 (emptyStore.set "a" ⟨7, 0⟩))).1 =
      (runCalls [("a", 40000), ("b", 41000)] (emptyStore.set "a" ⟨7, 0⟩)).1 :=
  c10_cleanup_observationally_equivalent 40000 (emptyStore.set "a" ⟨7, 0⟩)
    [("a", 40000), ("b", 41000)] (by decide)

/-- C7: every chain id in the EVM set or the Solana set yields non-empty
referral key and fee recipient; every other integer makes both lookups fail
with the `Unsupported chain ID` error. -/
theorem c7_supported_chain_lookups (c : Int) :
    ((c ∈ SUPPORTED_CHAINS_EVM ∨ c ∈ SUPPORTED_CHAINS_SOLANA) →
      ∃ k r, getReferralKey c = Except.ok k ∧ k ≠ "" ∧
        getAffiliateFeeRecipient c = Except.ok r ∧ r ≠ "") ∧
    ((c ∉ SUPPORTED_CHAINS_EVM ∧ c ∉ SUPPORTED_CHAINS_SOLANA) →
      getReferralKey c = Except.error ("Unsupported chain ID: " ++ toString c) ∧
      getAffiliateFeeRecipient c = Except.error ("Unsupported chain ID: " ++ toString c)) := by
  constructor
  · intro h
    rcases h with h | h
    · fin_cases h <;>
        exact ⟨DEBRIDGE_REFERRAL_CODE, EVM_RECIPIENT, rfl, by decide, rfl, by decide⟩
    · fin_cases h
      exact ⟨JUPITER_REFERRAL_PUBKEY, SOLANA_PUBLIC_KEY, rfl, by decide, rfl, by decide⟩
  · intro h
    unfold getReferralKey getAffiliateFeeRecipient
    rw [if_neg h.2, if_neg h.1, if_neg h.2, if_neg h.1]
    exact ⟨rfl, rfl⟩

/-- Witness for `c7_supported_chain_lookups`: chain 1 succeeds, chain 2 fails. -/
theorem c7_supported_chain_lookups_witness :
    (∃ k r, getReferralKey 1 = Except.ok k ∧ k ≠ "" ∧
        getAffiliateFeeRecipient 1 = Except.ok r ∧ r ≠ "") ∧
      (getReferralKey 2 = Except.error ("Unsupported chain ID: " ++ toString (2 : Int)) ∧
        getAffiliateFeeRecipient 2 =
          Except.error ("Unsupported chain ID: " ++ toString (2 : Int))) :=
  ⟨(c7_supported_chain_lookups 1).1 (Or.inl (by decide)),
    (c7_supported_chain_lookups 2).2 (by decide)⟩

lemma lookupHeader_set_eq (hs : List (String × String)) (k v : String) :
    lookupHeader (headersSet hs k v) k = some v := by
  induction hs with
  | nil => simp [headersSet, lookupHeader]
  | cons p rest ih =>
      by_cases hp : p.1 = k
      · simp [headersSet, hp, lookupHeader]
      · simp [headersSet, hp, lookupHeader, ih]

lemma lookupHeader_set_ne (hs : List (String × String)) (k v k' : String)
    (hne : k' ≠ k) :
    lookupHeader (headersSet hs k v) k' = lookupHeader hs k' := by
  induction hs with
  | nil => simp [headersSet, lookupHeader, Ne.symm hne]
  | cons p rest ih =>
      by_cases hp : p.1 = k
      · simp [headersSet, hp, lookupHeader, Ne.symm hne, ih]
      · by_cases hpk : p.1 = k'
        · simp [headersSet, hp, lookupHeader, hpk, hne, Ne.symm hne]
        · simp [headersSet, hp, lookupHeader, hpk, ih]

lemma lookup_rl_limit (hs : List (String × String)) (d : Decision) :
    lookupHeader (addRateLimitHeaders hs d) "X-RateLimit-Limit" =
      some (toString RATE_LIMIT) := by
  unfold addRateLimitHeaders
  rw [lookupHeader_set_ne _ _ _ _ (by decide), lookupHeader_set_ne _ _ _ _ (by decide),
    lookupHeader_set_eq]

lemma lookup_rl_remaining (hs : List (String × String)) (d : Decision) :
    lookupHeader (addRateLimitHeaders hs d) "X-RateLimit-Remaining" =
      some (toString d.remaining) := by
  unfold addRateLimitHeaders
  rw [lookupHeader_set_ne _ _ _ _ (by decide), lookupHeader_set_eq]

lemma lookup_rl_reset (hs : List (String × String)) (d : Decision) :
    lookupHeader (addRateLimitHeaders hs d) "X-RateLimit-Reset" =
      some (toString (jsCeilDiv d.reset 1000)) := by
  unfold addRateLimitHeaders
  rw [lookupHeader_set_eq]

lemma compress_lookup_ne (gz : Bytes → Bytes) (r : Resp) (k : String)
    (h1 : k ≠ "Content-Encoding") (h2 : k ≠ "Content-Length") :
    lookupHeader (compressResponse gz r).headers k = lookupHeader r.headers k := by
  simp only [compressResponse]
  rw [lookupHeader_set_ne _ _ _ _ h2, lookupHeader_set_ne _ _ _ _ h1]

lemma char_valid_nat (c : Char) :
    c.toNat < 0xD800 ∨ (0xE000 ≤ c.toNat ∧ c.toNat < 0x110000) := by
  have h := c.valid
  rcases h with h | h
  · left
    exact h
  · right
    exact h

lemma utf8Go_encodeChar (c : Char) (rest : List Nat) :
    utf8Go none (utf8EncodeChar c ++ rest) = c :: utf8Go none rest := by
  have hval := char_valid_nat c
  by_cases h1 : c.toNat < 0x80
  · have e : utf8EncodeChar c = [c.toNat] := by
      simp [utf8EncodeChar, h1]
    rw [e]
    show utf8Go none (c.toNat :: rest) = _
    simp only [utf8Go, leadStep, if_pos h1]
    simp [Char.ofNat_toNat]
  · by_cases h2 : c.toNat < 0x800
    · have e : utf8EncodeChar c = [0xC0 + c.toNat / 0x40, 0x80 + c.toNat % 0x40] := by
        simp only [utf8EncodeChar]
        rw [if_neg h1, if_pos h2]
      rw [e]
      show utf8Go none ((0xC0 + c.toNat / 0x40) :: (0x80 + c.toNat % 0x40) :: rest) = _
      have c1 : ¬ (0xC0 + c.toNat / 0x40 < 0x80) := by omega
      have c2 : 0xC2 ≤ 0xC0 + c.toNat / 0x40 ∧ 0xC0 + c.toNat / 0x40 ≤ 0xDF := by omega
      simp only [utf8Go, leadStep, if_neg c1, if_pos c2, List.nil_append]
      have c3 : (0x80 : Nat) ≤ 0x80 + c.toNat % 0x40 ∧ 0x80 + c.toNat % 0x40 ≤ 0xBF := by
        omega
      rw [if_pos c3]
      simp only [if_true]
      have c4 : (0xC0 + c.toNat / 0x40 - 0xC0) * 0x40 + (0x80 + c.toNat % 0x40 - 0x80) =
          c.toNat := by omega
      rw [c4, Char.ofNat_toNat]
    · by_cases h3 : c.toNat < 0x10000
      · have e : utf8EncodeChar c = [0xE0 + c.toNat / 0x1000,
            0x80 + (c.toNat / 0x40) % 0x40, 0x80 + c.toNat % 0x40] := by
          simp only [utf8EncodeChar]
          rw [if_neg h1, if_neg h2, if_pos h3]
        rw [e]
        show utf8Go none ((0xE0 + c.toNat / 0x1000) ::
          (0x80 + (c.toNat / 0x40) % 0x40) :: (0x80 + c.toNat % 0x40) :: rest) = _
        have c1 : ¬ (0xE0 + c.toNat / 0x1000 < 0x80) := by omega
        have c2 : ¬ (0xC2 ≤ 0xE0 + c.toNat / 0x1000 ∧ 0xE0 + c.toNat / 0x1000 ≤ 0xDF) := by
          omega
        have c2' : 0xE0 ≤ 0xE0 + c.toNat / 0x1000 ∧ 0xE0 + c.toNat / 0x1000 ≤ 0xEF := by
          omega
        simp only [utf8Go, leadStep, if_neg c1, if_neg c2, if_pos c2', List.nil_append]
        have c3 : (if 0xE0 + c.toNat / 0x1000 = 0xE0 then (0xA0 : Nat) else 0x80) ≤
            0x80 + (c.toNat / 0x40) % 0x40 ∧
            0x80 + (c.toNat / 0x40) % 0x40 ≤
              (if 0xE0 + c.toNat / 0x1000 = 0xED then (0x9F : Nat) else 0xBF) := by
          constructor <;> split <;> omega
        rw [if_pos c3, if_neg (by norm_num)]
        have c4 : (0x80 : Nat) ≤ 0x80 + c.toNat % 0x40 ∧ 0x80 + c.toNat % 0x40 ≤ 0xBF := by
          omega
        rw [if_pos c4]
        simp only [if_true]
        have c5 : ((0xE0 + c.toNat / 0x1000 - 0xE0) * 0x40 +
            (0x80 + (c.toNat / 0x40) % 0x40 - 0x80)) * 0x40 +
            (0x80 + c.toNat % 0x40 - 0x80) = c.toNat := by omega
        rw [c5, Char.ofNat_toNat]
      · have e : utf8EncodeChar c = [0xF0 + c.toNat / 0x40000,
            0x80 + (c.toNat / 0x1000) % 0x40, 0x80 + (c.toNat / 0x40) % 0x40,
            0x80 + c.toNat % 0x40] := by
          simp only [utf8EncodeChar]
          rw [if_neg h1, if_neg h2, if_neg h3]
        have hup : c.toNat < 0x110000 := by omega
        rw [e]
        show utf8Go none ((0xF0 + c.toNat / 0x40000) ::
          (0x80 + (c.toNat / 0x1000) % 0x40) :: (0x80 + (c.toNat / 0x40) % 0x40) ::
          (0x80 + c.toNat % 0x40) :: rest) = _
        have c1 : ¬ (0xF0 + c.toNat / 0x40000 < 0x80) := by omega
        have c2 : ¬ (0xC2 ≤ 0xF0 + c.toNat / 0x40000 ∧ 0xF0 + c.toNat / 0x40000 ≤ 0xDF) := by
          omega
        have c2' : ¬ (0xE0 ≤ 0xF0 + c.toNat / 0x40000 ∧ 0xF0 + c.toNat / 0x40000 ≤ 0xEF) := by
          omega
        have c2'' : 0xF0 ≤ 0xF0 + c.toNat / 0x40000 ∧ 0xF0 + c.toNat / 0x40000 ≤ 0xF4 := by
          omega
        simp only [utf8Go, leadStep, if_neg c1, if_neg c2, if_neg c2', if_pos c2'',
          List.nil_append]
        have c3 : (if 0xF0 + c.toNat / 0x40000 = 0xF0 then (0x90 : Nat) else 0x80) ≤
            0x80 + (c.toNat / 0x1000) % 0x40 ∧
            0x80 + (c.toNat / 0x1000) % 0x40 ≤
              (if 0xF0 + c.toNat / 0x40000 = 0xF4 then (0x8F : Nat) else 0xBF) := by
          constructor <;> split <;> omega
        rw [if_pos c3, if_neg (by norm_num)]
        have c4 : (0x80 : Nat) ≤ 0x80 + (c.toNat / 0x40) % 0x40 ∧
            0x80 + (c.toNat / 0x40) % 0x40 ≤ 0xBF := by omega
        rw [if_pos c4, if_neg (by norm_num)]
        have c5 : (0x80 : Nat) ≤ 0x80 + c.toNat % 0x40 ∧ 0x80 + c.toNat % 0x40 ≤ 0xBF := by
          omega
        rw [if_pos c5]
        simp only [if_true]
        have c6 : (((0xF0 + c.toNat / 0x40000 - 0xF0) * 0x40 +
            (0x80 + (c.toNat / 0x1000) % 0x40 - 0x80)) * 0x40 +
            (0x80 + (c.toNat / 0x40) % 0x40 - 0x80)) * 0x40 +
            (0x80 + c.toNat % 0x40 - 0x80) = c.toNat := by omega
        rw [c6, Char.ofNat_toNat]

lemma utf8Go_encode_list :
    ∀ (cs : List Char), utf8Go none ((cs.map utf8EncodeChar).flatten) = cs := by
  intro cs
  induction cs with
  | nil => rfl
  | cons c rest ih =>
      simp only [List.map_cons, List.flatten_cons]
      rw [utf8Go_encodeChar, ih]

/-- Text round-trip: a string whose UTF-8 bytes do not start with a
byte-order mark survives `response.text()` followed by
`TextEncoder.encode`. -/
lemma jsTextDecode_strBytes (s : String)
    (hbom : (strBytes s).take 3 ≠ [0xEF, 0xBB, 0xBF]) :
    jsTextDecode (strBytes s) = s := by
  unfold jsTextDecode
  rw [if_neg hbom]
  have hdec : utf8Decode (strBytes s) = s.toList := by
    unfold utf8Decode strBytes
    exact utf8Go_encode_list s.toList
  rw [hdec]
  rfl

/-- A string starting with an ASCII character cannot begin with the
three-byte UTF-8 byte-order mark. -/
lemma strBytes_ascii_head_ne_bom (s : String) (c : Char) (tl : List Char)
    (hs : s.data = c :: tl) (hc : c.toNat < 0x80) :
    (strBytes s).take 3 ≠ [0xEF, 0xBB, 0xBF] := by
  have henc : utf8EncodeChar c = [c.toNat] := by simp [utf8EncodeChar, hc]
  simp only [strBytes, String.toList, hs, List.map_cons, List.flatten_cons, henc,
    List.cons_append, List.nil_append, List.take_succ_cons]
  intro hEq
  have h1 : c.toNat = 0xEF := (List.cons_eq_cons.mp hEq).1
  omega

lemma brace_head (a b : String) :
    ∃ tl, ("\x7b" ++ a ++ b).data = Char.ofNat 0x7B :: tl := by
  refine ⟨a.data ++ b.data, ?_⟩
  rw [String.data_append, String.data_append]
  have h1 : ("\x7b" : String).data = [Char.ofNat 0x7B] := by decide
  rw [h1]
  simp [List.append_assoc]

/-- The serialized widget configuration starts with an opening brace. -/
lemma stringifyWidgetConfig_head (w : WidgetConfigT) :
    ∃ tl, (stringifyWidgetConfig w).data = Char.ofNat 0x7B :: tl := by
  unfold stringifyWidgetConfig
  exact brace_head _ _

/-- The widget-config JSON (which starts with a brace, not a byte-order
mark) survives the text round-trip inside `compressResponse`. -/
lemma WIDGET_CONFIG_json_roundtrip :
    ∃ w, WIDGET_CONFIG = Except.ok w ∧
      strBytes (jsTextDecode (strBytes (stringifyWidgetConfig w))) =
        strBytes (stringifyWidgetConfig w) := by
  refine ⟨_, rfl, ?_⟩
  obtain ⟨tl, htl⟩ := stringifyWidgetConfig_head _
  rw [jsTextDecode_strBytes _ (strBytes_ascii_head_ne_bom _ _ _ htl (by decide))]

/-- C8 counterexample: `compressResponse` reads the body with
`response.text()` (a lossy UTF-8 decode) and re-encodes it before gzipping,
so for a binary body (here the single byte 0xFF, as in a served `.ico` or
`.png` asset) even a perfect codec — the identity here, whose decompression
is also the identity — yields bytes (the U+FFFD encoding EF BF BD) different
from the original body, refuting the exact round-trip for every response. -/
theorem c8_counterexample :
    (compressResponse (fun b => b) ⟨200, [], [255]⟩).body = [239, 191, 189] ∧
    (compressResponse (fun b => b) ⟨200, [], [255]⟩).body ≠ [255] := by
  decide

/-- C8 (amended): without gzip in `accept-encoding` the response passes
through unchanged; with it, for every response whose body bytes survive the
`response.text()`/`TextEncoder.encode` round-trip (all valid-UTF-8 text
bodies; binary bodies are excluded, as the counterexample forces), the body
is the compressed form decompressing back to the original bytes for any
correct codec, `Content-Length` is the compressed byte length,
`Content-Encoding` is `gzip`, and status and all other headers are
preserved. -/
theorem c8_compression_amended (gz dec : Bytes → Bytes)
    (hinv : ∀ b, dec (gz b) = b) (r : Resp) (req : Request)
    (hbody : strBytes (jsTextDecode r.body) = r.body) :
    (acceptsGzip req = false →
      (if acceptsGzip req then compressResponse gz r else r) = r) ∧
    (acceptsGzip req = true →
      dec (compressResponse gz r).body = r.body ∧
      (compressResponse gz r).body = gz r.body ∧
      lookupHeader (compressResponse gz r).headers "Content-Length" =
        some (toString (gz r.body).length) ∧
      lookupHeader (compressResponse gz r).headers "Content-Encoding" = some "gzip" ∧
      (compressResponse gz r).status = r.status ∧
      (∀ k, k ≠ "Content-Encoding" → k ≠ "Content-Length" →
        lookupHeader (compressResponse gz r).headers k = lookupHeader r.headers k)) := by
  constructor
  · intro h
    rw [if_neg (by simp [h])]
  · intro _
    have hb : (compressResponse gz r).body = gz r.body := by
      simp only [compressResponse]
      rw [hbody]
    refine ⟨?_, hb, ?_, ?_, rfl, fun k h1 h2 => compress_lookup_ne gz r k h1 h2⟩
    · rw [hb, hinv]
    · simp only [compressResponse]
      rw [lookupHeader_set_eq, hbody]
    · simp only [compressResponse]
      rw [lookupHeader_set_ne _ _ _ _ (by decide), lookupHeader_set_eq]

/-- Witness for `c8_compression_amended`: the identity codec on a concrete
text response. -/
theorem c8_compression_amended_witness :
    (compressResponse (fun b => b)
        ⟨200, [("Content-Type", "text/plain")], strBytes "hello"⟩).body =
      (⟨200, [("Content-Type", "text/plain")], strBytes "hello"⟩ : Resp).body ∧
    lookupHeader (compressResponse (fun b => b)
        ⟨200, [("Content-Type", "text/plain")], strBytes "hello"⟩).headers
      "Content-Encoding" = some "gzip" :=
  have h := c8_compression_amended (fun b => b) (fun b => b) (fun _ => rfl)
    ⟨200, [("Content-Type", "text/plain")], strBytes "hello"⟩
    ⟨"/x", none, none, some "gzip"⟩ (by decide)
  ⟨(h.2 (by decide)).1, (h.2 (by decide)).2.2.2.1⟩

lemma zipWith_get? {α β γ : Type} (f : α → β → γ) :
    ∀ (as : List α) (bs : List β) (k : Nat) (a : α) (b : β),
      as[k]? = some a → bs[k]? = some b →
      (List.zipWith f as bs)[k]? = some (f a b) := by
  intro as
  induction as with
  | nil => intro bs k a b ha _; simp at ha
  | cons x as' ih =>
      intro bs k a b ha hb
      cases bs with
      | nil => simp at hb
      | cons y bs' =>
          cases k with
          | zero =>
              simp at ha hb
              simp [List.zipWith, ha, hb]
          | succ k' =>
              simp only [List.getElem?_cons_succ] at ha hb
              simpa [List.zipWith] using ih bs' k' a b ha hb

lemma runServe_split (gz : Bytes → Bytes) :
    ∀ (qs : List ReqAt) (s : Store),
      (runServe gz qs s).1 =
        List.zipWith
          (fun (q : ReqAt) (d : Decision) =>
            buildResponse gz q.req q.now q.indexFile q.asset d)
          qs (runCalls (qs.map fun q => (clientIP q.req, q.now)) s).1 ∧
      (runServe gz qs s).2 =
        (runCalls (qs.map fun q => (clientIP q.req, q.now)) s).2 := by
  intro qs
  induction qs with
  | nil => intro s; exact ⟨rfl, rfl⟩
  | cons q rest ih =>
      intro s
      have hih := ih (checkRateLimit (clientIP q.req) q.now s).2
      refine ⟨?_, ?_⟩
      · simp only [runServe, handle, runCalls, List.map_cons, List.zipWith_cons_cons]
        rw [hih.1]
      · simp only [runServe, handle, runCalls, List.map_cons]
        exact hih.2

lemma buildResponse_rejected (gz : Bytes → Bytes) (req : Request) (now : Int)
    (fsr : FsResult) (ar : AssetResult) (d : Decision) (h : d.allowed = false) :
    buildResponse gz req now fsr ar d =
      { status := 429
        headers := addRateLimitHeaders
          [("Content-Type", "text/plain"),
            ("Retry-After", toString (jsCeilDiv (d.reset - now) 1000))] d
        body := strBytes "Rate limit exceeded" } := by
  simp [buildResponse, h]

/-- C2: an unexpired entry at or over the limit makes `checkRateLimit` return
`allowed=false, remaining=0, resetAt=windowStart+windowDuration` and leaves
the whole table unchanged; and at the router level, in a single-identity
in-window run every request with index `≥ limit` receives a 429 response
whose `X-RateLimit-Remaining` header is `"0"`. -/
theorem c2_over_limit_rejected :
    (∀ (ip : String) (now : Int) (s : Store) (e : Entry),
        s ip = some e → RATE_LIMIT ≤ e.count → now - e.timestamp ≤ RATE_WINDOW →
        checkRateLimit ip now s = (⟨false, 0, e.timestamp + RATE_WINDOW⟩, s)) ∧
    (∀ (gz : Bytes → Bytes) (q₀ : ReqAt) (qrest : List ReqAt) (s : Store) (ip : String),
        (∀ q ∈ q₀ :: qrest, clientIP q.req = ip) → s ip = none →
        (∀ q ∈ qrest, q.now - q₀.now ≤ RATE_WINDOW) →
        ∀ k : Nat, RATE_LIMIT ≤ (k : Int) → k < (q₀ :: qrest).length →
          ∃ r, (runServe gz (q₀ :: qrest) s).1[k]? = some r ∧
            r.status = 429 ∧
            lookupHeader r.headers "X-RateLimit-Remaining" = some "0") := by
  constructor
  · intro ip now s e hs hfull hw
    obtain ⟨c, t₀⟩ := e
    exact checkRateLimit_full ip s c t₀ now hs hw hfull
  · intro gz q₀ qrest s ip hip hfresh hwin k hk hklen
    have hmap : (q₀ :: qrest).map (fun q => (clientIP q.req, q.now)) =
        (q₀.now :: qrest.map fun q => q.now).map (fun t => (ip, t)) := by
      rw [List.map_congr_left
        (fun q hq => by rw [show clientIP q.req = ip from hip q hq])]
      simp [List.map_map, Function.comp]
    have hdec := runCalls_fresh_window ip s q₀.now (qrest.map fun q => q.now) hfresh
      (by
        intro t ht
        obtain ⟨q, hq, rfl⟩ := List.mem_map.mp ht
        exact hwin q hq)
    have hsplit := (runServe_split gz (q₀ :: qrest) s).1
    rw [hmap] at hsplit
    rw [hdec] at hsplit
    cases k with
    | zero => exact absurd hk (by decide)
    | succ k' =>
        have hk'len : k' < qrest.length := by
          simpa [List.length_cons] using Nat.lt_of_succ_lt_succ hklen
        have hq : (q₀ :: qrest)[k' + 1]? = some (qrest.get ⟨k', hk'len⟩) := by
          simp [List.getElem?_cons_succ, List.getElem?_eq_getElem hk'len,
            List.get_eq_getElem]
        have hd : (⟨true, RATE_LIMIT - 1, q₀.now + RATE_WINDOW⟩ ::
            (List.range (qrest.map fun q => q.now).length).map
              (fun j : Nat => decisionAfter q₀.now (1 + (j : Int))))[k' + 1]? =
            some (decisionAfter q₀.now (1 + (k' : Int))) := by
          simp [List.getElem?_cons_succ, List.getElem?_map, List.getElem?_range, hk'len]
        have hzip := zipWith_get?
          (fun (q : ReqAt) (d : Decision) =>
            buildResponse gz q.req q.now q.indexFile q.asset d)
          (q₀ :: qrest) _ (k' + 1) _ _ hq hd
        have hdrej : decisionAfter q₀.now (1 + (k' : Int)) =
            ⟨false, 0, q₀.now + RATE_WINDOW⟩ := by
          unfold decisionAfter
          rw [if_neg]
          push_cast at hk
          omega
        refine ⟨buildResponse gz (qrest.get ⟨k', hk'len⟩).req
          (qrest.get ⟨k', hk'len⟩).now (qrest.get ⟨k', hk'len⟩).indexFile
          (qrest.get ⟨k', hk'len⟩).asset
          ⟨false, 0, q₀.now + RATE_WINDOW⟩, ?_, ?_, ?_⟩
        · rw [hsplit, hzip, hdrej]
        · rw [buildResponse_rejected _ _ _ _ _ _ rfl]
        · rw [buildResponse_rejected _ _ _ _ _ _ rfl]
          rw [lookup_rl_remaining]
          rfl

/-- Witness for `c2_over_limit_rejected`: a full entry rejected in place, and
the 51st of 51 same-identity requests drawing a 429 with remaining 0. -/
theorem c2_over_limit_rejected_witness :
    (checkRateLimit "a" 100 (emptyStore.set "a" ⟨50, 0⟩) =
      (⟨false, 0, 0 + RATE_WINDOW⟩, emptyStore.set "a" ⟨50, 0⟩)) ∧
    (∃ r, (runServe (fun b => b)
        (⟨⟨"/", some "1.2.3.4", none, none⟩, 0, FsResult.ok "x", AssetResult.threw⟩ ::
          List.replicate 50
            ⟨⟨"/", some "1.2.3.4", none, none⟩, 5, FsResult.ok "x", AssetResult.threw⟩)
        emptyStore).1[50]? = some r ∧
      r.status = 429 ∧
      lookupHeader r.headers "X-RateLimit-Remaining" = some "0") :=
  ⟨c2_over_limit_rejected.1 "a" 100 (emptyStore.set "a" ⟨50, 0⟩) ⟨50, 0⟩
      (Store.set_get _ _ _) (by decide) (by decide),
    c2_over_limit_rejected.2 (fun b => b)
      ⟨⟨"/", some "1.2.3.4", none, none⟩, 0, FsResult.ok "x", AssetResult.threw⟩
      (List.replicate 50
        ⟨⟨"/", some "1.2.3.4", none, none⟩, 5, FsResult.ok "x", AssetResult.threw⟩)
      emptyStore "1.2.3.4" (by decide) rfl (by decide) 50 (by decide) (by decide)⟩

lemma WIDGET_CONFIG_exists_ok : ∃ w, WIDGET_CONFIG = Except.ok w := by
  cases hW : WIDGET_CONFIG with
  | ok w => exact ⟨w, rfl⟩
  | error e =>
      have h : WIDGET_CONFIG.isOk = true := rfl
      rw [hW] at h
      exact Bool.noConfusion h

lemma hasRateHeaders_add (hs : List (String × String)) (d : Decision) :
    hasRateHeaders (addRateLimitHeaders hs d) d :=
  ⟨lookup_rl_limit hs d, lookup_rl_remaining hs d, lookup_rl_reset hs d⟩

lemma hasRateHeaders_compress (gz : Bytes → Bytes) (r : Resp) (d : Decision)
    (h : hasRateHeaders r.headers d) :
    hasRateHeaders (compressResponse gz r).headers d := by
  obtain ⟨h1, h2, h3⟩ := h
  refine ⟨?_, ?_, ?_⟩
  · rw [compress_lookup_ne _ _ _ (by decide) (by decide)]; exact h1
  · rw [compress_lookup_ne _ _ _ (by decide) (by decide)]; exact h2
  · rw [compress_lookup_ne _ _ _ (by decide) (by decide)]; exact h3

lemma buildResponse_widget (gz : Bytes → Bytes) (req : Request) (now : Int)
    (fsr : FsResult) (ar : AssetResult) (d : Decision) (w : WidgetConfigT)
    (hall : d.allowed = true) (hpath : req.path = "/widget-config")
    (hW : WIDGET_CONFIG = Except.ok w) :
    buildResponse gz req now fsr ar d =
      if acceptsGzip req = true then compressResponse gz (widgetConfigResp d w)
      else widgetConfigResp d w := by
  simp [buildResponse, widgetConfigResp, hall, hpath, hW]

lemma buildResponse_index_ok (gz : Bytes → Bytes) (req : Request) (now : Int)
    (fsr : FsResult) (ar : AssetResult) (d : Decision) (content : String)
    (hall : d.allowed = true) (hw : req.path ≠ "/widget-config")
    (hpath : req.path = "/" ∨ req.path = "/index.html")
    (hfsr : fsr = FsResult.ok content) :
    buildResponse gz req now fsr ar d = indexOkResp content d := by
  simp [buildResponse, indexOkResp, hall, hw, hpath, hfsr]

lemma buildResponse_index_err (gz : Bytes → Bytes) (req : Request) (now : Int)
    (fsr : FsResult) (ar : AssetResult) (d : Decision)
    (hall : d.allowed = true) (hw : req.path ≠ "/widget-config")
    (hpath : req.path = "/" ∨ req.path = "/index.html")
    (hfsr : fsr = FsResult.err) :
    buildResponse gz req now fsr ar d = ⟨500, [], strBytes "Server Error"⟩ := by
  simp [buildResponse, hall, hw, hpath, hfsr]

lemma buildResponse_asset_ok (gz : Bytes → Bytes) (req : Request) (now : Int)
    (fsr : FsResult) (ar : AssetResult) (d : Decision) (a : Resp)
    (hall : d.allowed = true) (hw : req.path ≠ "/widget-config")
    (hnot : ¬(req.path = "/" ∨ req.path = "/index.html"))
    (hassets : isAssetPath req.path = true) (har : ar = AssetResult.resp a)
    (hok : 200 ≤ a.status ∧ a.status < 300) :
    buildResponse gz req now fsr ar d =
      if acceptsGzip req = true then compressResponse gz (assetOkResp req a d)
      else assetOkResp req a d := by
  simp [buildResponse, assetOkResp, hall, hw, hnot, hassets, har, hok]

lemma buildResponse_asset_miss (gz : Bytes → Bytes) (req : Request) (now : Int)
    (fsr : FsResult) (ar : AssetResult) (d : Decision) (a : Resp)
    (hall : d.allowed = true) (hw : req.path ≠ "/widget-config")
    (hnot : ¬(req.path = "/" ∨ req.path = "/index.html"))
    (hassets : isAssetPath req.path = true) (har : ar = AssetResult.resp a)
    (hnok : ¬(200 ≤ a.status ∧ a.status < 300)) :
    buildResponse gz req now fsr ar d = ⟨404, [], strBytes "Not Found"⟩ := by
  simp [buildResponse, hall, hw, hnot, hassets, har, hnok]

lemma buildResponse_asset_threw (gz : Bytes → Bytes) (req : Request) (now : Int)
    (fsr : FsResult) (ar : AssetResult) (d : Decision)
    (hall : d.allowed = true) (hw : req.path ≠ "/widget-config")
    (hnot : ¬(req.path = "/" ∨ req.path = "/index.html"))
    (hassets : isAssetPath req.path = true) (har : ar = AssetResult.threw) :
    buildResponse gz req now fsr ar d = ⟨500, [], strBytes "Server Error"⟩ := by
  simp [buildResponse, hall, hw, hnot, hassets, har]

lemma buildResponse_notfound (gz : Bytes → Bytes) (req : Request) (now : Int)
    (fsr : FsResult) (ar : AssetResult) (d : Decision)
    (hall : d.allowed = true) (hw : req.path ≠ "/widget-config")
    (hnot : ¬(req.path = "/" ∨ req.path = "/index.html"))
    (hassets : isAssetPath req.path = false) :
    buildResponse gz req now fsr ar d =
      ⟨404, addRateLimitHeaders
        [("Content-Type", "text/plain"), ("Cache-Control", "no-store")] d,
        strBytes "Not Found"⟩ := by
  simp [buildResponse, hall, hw, hnot, hassets]

/-- C5 counterexample: the asset-branch 404 (`serveDir` miss) carries no
rate-limit headers at all, refuting "every response carries them". -/
theorem c5_counterexample :
    ((handle (fun b => b) ⟨"/assets/app.js", none, none, none⟩ 0 emptyStore
        FsResult.err (AssetResult.resp ⟨404, [], []⟩)).1).status = 404 ∧
    lookupHeader ((handle (fun b => b) ⟨"/assets/app.js", none, none, none⟩ 0
        emptyStore FsResult.err (AssetResult.resp ⟨404, [], []⟩)).1).headers
      "X-RateLimit-Limit" = none := by
  decide

/-- C5 (amended): the 429 response, the `/widget-config` success, the SPA-root
success, the static-asset success and the fall-through 404 all carry the three
`X-RateLimit-*` headers (reset in epoch seconds); the SPA-root 500, the
asset-branch 404 and the asset-branch 500 carry no headers at all. -/
theorem c5_amended_rate_limit_headers (gz : Bytes → Bytes) (req : Request)
    (now : Int) (s : Store) (fsr : FsResult) (ar : AssetResult) :
    ((checkRateLimit (clientIP req) now s).1.allowed = false →
        hasRateHeaders (handle gz req now s fsr ar).1.headers
          (checkRateLimit (clientIP req) now s).1) ∧
    ((checkRateLimit (clientIP req) now s).1.allowed = true →
      (req.path = "/widget-config" →
          hasRateHeaders (handle gz req now s fsr ar).1.headers
            (checkRateLimit (clientIP req) now s).1) ∧
      (req.path ≠ "/widget-config" → (req.path = "/" ∨ req.path = "/index.html") →
          (∀ content, fsr = FsResult.ok content →
            hasRateHeaders (handle gz req now s fsr ar).1.headers
              (checkRateLimit (clientIP req) now s).1) ∧
          (fsr = FsResult.err → (handle gz req now s fsr ar).1.headers = [])) ∧
      (req.path ≠ "/widget-config" → ¬(req.path = "/" ∨ req.path = "/index.html") →
        isAssetPath req.path = true →
          (∀ a, ar = AssetResult.resp a → 200 ≤ a.status ∧ a.status < 300 →
            hasRateHeaders (handle gz req now s fsr ar).1.headers
              (checkRateLimit (clientIP req) now s).1) ∧
          (∀ a, ar = AssetResult.resp a → ¬(200 ≤ a.status ∧ a.status < 300) →
            (handle gz req now s fsr ar).1.headers = []) ∧
          (ar = AssetResult.threw → (handle gz req now s fsr ar).1.headers = [])) ∧
      (req.path ≠ "/widget-config" → ¬(req.path = "/" ∨ req.path = "/index.html") →
        isAssetPath req.path = false →
          hasRateHeaders (handle gz req now s fsr ar).1.headers
            (checkRateLimit (clientIP req) now s).1)) := by
  have hd : (handle gz req now s fsr ar).1 =
      buildResponse gz req now fsr ar (checkRateLimit (clientIP req) now s).1 := rfl
  constructor
  · intro h
    rw [hd, buildResponse_rejected _ _ _ _ _ _ h]
    exact hasRateHeaders_add _ _
  · intro h
    refine ⟨?_, ?_, ?_, ?_⟩
    · intro hpath
      obtain ⟨w, hW⟩ := WIDGET_CONFIG_exists_ok
      rw [hd, buildResponse_widget gz req now fsr ar _ w h hpath hW]
      by_cases hgz : acceptsGzip req = true
      · rw [if_pos hgz]
        exact hasRateHeaders_compress _ _ _ (hasRateHeaders_add _ _)
      · rw [if_neg hgz]
        exact hasRateHeaders_add _ _
    · intro hw hpath
      constructor
      · intro content hfsr
        rw [hd, buildResponse_index_ok gz req now fsr ar _ content h hw hpath hfsr]
        exact hasRateHeaders_add _ _
      · intro hfsr
        rw [hd, buildResponse_index_err gz req now fsr ar _ h hw hpath hfsr]
    · intro hw hnot hassets
      refine ⟨?_, ?_, ?_⟩
      · intro a har hok
        rw [hd, buildResponse_asset_ok gz req now fsr ar _ a h hw hnot hassets har hok]
        by_cases hgz : acceptsGzip req = true
        · rw [if_pos hgz]
          exact hasRateHeaders_compress _ _ _ (hasRateHeaders_add _ _)
        · rw [if_neg hgz]
          exact hasRateHeaders_add _ _
      · intro a har hnok
        rw [hd, buildResponse_asset_miss gz req now fsr ar _ a h hw hnot hassets har hnok]
      · intro har
        rw [hd, buildResponse_asset_threw gz req now fsr ar _ h hw hnot hassets har]
    · intro hw hnot hassets
      rw [hd, buildResponse_notfound gz req now fsr ar _ h hw hnot hassets]
      exact hasRateHeaders_add _ _

/-- Witness for `c5_amended_rate_limit_headers`: the fall-through 404 carries
the headers. -/
theorem c5_amended_rate_limit_headers_witness :
    hasRateHeaders
      (handle (fun b => b) ⟨"/nope", none, none, none⟩ 0 emptyStore FsResult.err
        AssetResult.threw).1.headers
      (checkRateLimit (clientIP ⟨"/nope", none, none, none⟩) 0 emptyStore).1 :=
  ((c5_amended_rate_limit_headers (fun b => b) ⟨"/nope", none, none, none⟩ 0
      emptyStore FsResult.err AssetResult.threw).2 (by decide)).2.2.2
    (by decide) (by decide) (by decide)

/-- C9: the `/widget-config` response body is a pure function of the static
configuration: it does not depend on the clock, the rate-limit store, or the
file-system oracles, and repeated serializations are byte-identical. -/
theorem c9_widget_config_deterministic (gz : Bytes → Bytes) (req : Request)
    (now₁ now₂ : Int) (s₁ s₂ : Store) (f₁ f₂ : FsResult) (a₁ a₂ : AssetResult)
    (hpath : req.path = "/widget-config")
    (h₁ : (checkRateLimit (clientIP req) now₁ s₁).1.allowed = true)
    (h₂ : (checkRateLimit (clientIP req) now₂ s₂).1.allowed = true) :
    ∃ w, WIDGET_CONFIG = Except.ok w ∧
      (handle gz req now₁ s₁ f₁ a₁).1.body = (handle gz req now₂ s₂ f₂ a₂).1.body ∧
      (handle gz req now₁ s₁ f₁ a₁).1.body =
        (if acceptsGzip req = true then gz (strBytes (stringifyWidgetConfig w))
          else strBytes (stringifyWidgetConfig w)) := by
  obtain ⟨w, hW, hrt⟩ := WIDGET_CONFIG_json_roundtrip
  have hb : ∀ (now : Int) (s : Store) (f : FsResult) (a : AssetResult),
      (checkRateLimit (clientIP req) now s).1.allowed = true →
      (handle gz req now s f a).1.body =
        (if acceptsGzip req = true then gz (strBytes (stringifyWidgetConfig w))
          else strBytes (stringifyWidgetConfig w)) := by
    intro now s f a hall
    have hh : (handle gz req now s f a).1 = buildResponse gz req now f a
        (checkRateLimit (clientIP req) now s).1 := rfl
    rw [hh, buildResponse_widget gz req now f a _ w hall hpath hW]
    by_cases hgz : acceptsGzip req = true
    · rw [if_pos hgz, if_pos hgz]
      simp only [compressResponse, widgetConfigResp]
      rw [hrt]
    · rw [if_neg hgz, if_neg hgz]
      simp [widgetConfigResp]
  exact ⟨w, hW, by rw [hb now₁ s₁ f₁ a₁ h₁, hb now₂ s₂ f₂ a₂ h₂], hb now₁ s₁ f₁ a₁ h₁⟩

/-- Witness for `c9_widget_config_deterministic`: two calls at different times
and oracle states. -/
theorem c9_widget_config_deterministic_witness :
    ∃ w, WIDGET_CONFIG = Except.ok w ∧
      (handle (fun b => b) ⟨"/widget-config", none, none, none⟩ 0 emptyStore
          FsResult.err AssetResult.threw).1.body =
        (handle (fun b => b) ⟨"/widget-config", none, none, none⟩ 99 emptyStore
          (FsResult.ok "x") AssetResult.threw).1.body ∧
      (handle (fun b => b) ⟨"/widget-config", none, none, none⟩ 0 emptyStore
          FsResult.err AssetResult.threw).1.body =
        (if acceptsGzip ⟨"/widget-config", none, none, none⟩ = true
          then (fun b => b) (strBytes (stringifyWidgetConfig w))
          else strBytes (stringifyWidgetConfig w)) :=
  c9_widget_config_deterministic (fun b => b) ⟨"/widget-config", none, none, none⟩
    0 99 emptyStore emptyStore FsResult.err (FsResult.ok "x") AssetResult.threw
    AssetResult.threw rfl (by decide) (by decide)

end Portal
